import Mathlib

/-!
Shallow embedding of `proj2_nps.py`: a command-line explorer for National
Park Service sites with an on-disk JSON request cache.

Conventions of the embedding:
- Python `dict` objects are association lists `List (String × String)`;
  insertion preserves position of an existing key (as CPython does) and
  appends fresh keys at the end.
- Python strings are Lean `String`; `str.lower()` / `str.strip()` /
  `str.isnumeric()` / `int(...)` are modelled on the character list
  (ASCII-faithful, which covers every input the claims mention).
- The cache file on disk is a `CacheFile`: it is absent, unreadable or
  holding malformed JSON (both make the `try:` block of the source raise),
  or it stores a parsed string-to-string mapping.
- The network is a pure function `net : url → params → body`; the fetcher
  reports how many network calls it performed.
-/

/-- Lookup in a Python dict modelled as an association list: the first
(and, for dicts built by `dictInsert`, only) binding of the key. -/
def dictLookup (d : List (String × String)) (k : String) : Option String :=
  match d with
  | [] => none
  | p :: rest => if p.1 = k then some p.2 else dictLookup rest k

/-- Python `d[k] = v` on a dict: overwrite the binding in place when the
key is present, append it otherwise. -/
def dictInsert (d : List (String × String)) (k v : String) : List (String × String) :=
  if (dictLookup d k).isSome then
    d.map (fun p => if p.1 = k then (k, v) else p)
  else
    d ++ [(k, v)]

/-- Python `prev.update(new)`: insert every binding of `new`, left to
right, into `prev` (`proj2_nps.py` line 91). -/
def dictUpdate (prev new : List (String × String)) : List (String × String) :=
  new.foldl (fun acc p => dictInsert acc p.1 p.2) prev

/-- Python `sep.join(items)` (`'_'.join(items)`, line 117): empty list
gives the empty string, otherwise the head followed by `sep ++ item` for
each remaining item. -/
def pyJoin (sep : String) : List String → String
  | [] => ""
  | s :: rest => rest.foldl (fun acc t => acc ++ sep ++ t) s

/-- `construct_unique_key(baseurl, params)` (lines 97-117): build
`items = [baseurl]`, extend with key then value for each param entry in
iteration order, and return `'_'.join(items)`. -/
def construct_unique_key (baseurl : String) (params : List (String × String)) : String :=
  pyJoin "_" (params.foldl (fun items item => items ++ [item.1, item.2]) [baseurl])

/-- State of the on-disk cache document. `missing` is an absent file,
`corrupt` is a file whose read or `json.loads` raises, `stored d` is a
file holding the JSON object `d`. -/
inductive CacheFile
  | missing
  | corrupt
  | stored (entries : List (String × String))
  deriving DecidableEq

/-- Reading and parsing the cache file: the body of the `try:` block of
`open_cache` (lines 61-65); `Except.error` is the raised exception. -/
def readCacheFile : CacheFile → Except Unit (List (String × String))
  | .missing => .error ()
  | .corrupt => .error ()
  | .stored d => .ok d

/-- `open_cache()` (lines 48-68): return the parsed file contents, or an
empty dict when the `try:` block raises. -/
def open_cache (file : CacheFile) : List (String × String) :=
  match readCacheFile file with
  | .ok d => d
  | .error _ => []

/-- `save_cache(cache_dict)` (lines 71-95): re-read the file with the
same raise-to-empty fallback as `open_cache`, merge the new entries on
top with `prev_dic.update(cache_dict)`, and overwrite the file with the
result. -/
def save_cache (file : CacheFile) (cache_dict : List (String × String)) : CacheFile :=
  CacheFile.stored (dictUpdate (open_cache file) cache_dict)

/-- The key computed at lines 136-139 of `make_request_with_cache`:
`construct_unique_key(url, params)` when `params` is truthy (non-empty),
else the bare url. -/
def request_key (url : String) (params : List (String × String)) : String :=
  if params ≠ [] then construct_unique_key url params else url

/-- Result of one `make_request_with_cache` call: the returned body, the
cache file afterwards, and how many network requests were issued. -/
structure FetchResult where
  result : String
  file : CacheFile
  networkCalls : Nat
  deriving DecidableEq

/-- `make_request_with_cache(url, params)` (lines 120-150): compute the
key, load the cache; on a hit return the cached value with no network
call, on a miss perform the GET (`net url params`), persist
`{unique_key: result}` via `save_cache`, and return the body. -/
def make_request_with_cache (net : String → List (String × String) → String)
    (file : CacheFile) (url : String) (params : List (String × String)) : FetchResult :=
  let unique_key := request_key url params
  let cache_dic := open_cache file
  match dictLookup cache_dic unique_key with
  | some result => ⟨result, file, 0⟩
  | none =>
      let result := net url params
      ⟨result, save_cache file [(unique_key, result)], 1⟩

/-- Python `str.lower()` on the character list (ASCII case mapping). -/
def pyLower (s : String) : String :=
  String.mk (s.data.map Char.toLower)

/-- Python `str.strip()`: drop leading and trailing whitespace. -/
def pyStrip (s : String) : String :=
  String.mk (((s.data.dropWhile Char.isWhitespace).reverse.dropWhile Char.isWhitespace).reverse)

/-- The Unicode decimal-digit property (category Nd) with its digit
value, which is exactly what Python's `int()` accepts per character, for
the character ranges this development evaluates: the ASCII digits
`U+0030..U+0039` and the Arabic-Indic digits `U+0660..U+0669`. Python's
table extends over further Nd ranges; no theorem below quantifies over
arbitrary strings through this function. -/
def pyCharDecimal (c : Char) : Option Nat :=
  if 48 ≤ c.toNat ∧ c.toNat ≤ 57 then some (c.toNat - 48)
  else if 1632 ≤ c.toNat ∧ c.toNat ≤ 1641 then some (c.toNat - 1632)
  else none

/-- The Unicode numeric property (categories Nd, Nl, No), which is what
`str.isnumeric()` tests per character, for the characters this
development evaluates: every Nd character of `pyCharDecimal`, plus the
superscript digits `U+00B2` (`²`), `U+00B3` and `U+00B9` — numeric (No)
but not decimal, so `isnumeric` accepts them while `int()` raises. -/
def pyCharNumeric (c : Char) : Bool :=
  (pyCharDecimal c).isSome || c.toNat = 178 || c.toNat = 179 || c.toNat = 185

/-- Python `str.isnumeric()`: non-empty and every character has the
Unicode numeric property. -/
def pyIsNumeric (s : String) : Bool :=
  !s.data.isEmpty && s.data.all pyCharNumeric

/-- Python `int(s)` on an unsigned, unpadded input (the only shape the
loop ever feeds it): the base-10 value when every character is a decimal
digit (category Nd), and `none` for the `ValueError` it raises otherwise
— in particular on numeric-but-not-decimal strings like `"²"`. -/
def pyIntOpt (s : String) : Option Nat :=
  if !s.data.isEmpty && s.data.all (fun c => (pyCharDecimal c).isSome) then
    some (s.data.foldl (fun n c => 10 * n + (pyCharDecimal c).getD 0) 0)
  else none

/-- `NationalSite` (lines 16-42): category, name, address, zipcode,
phone, set once at construction. -/
structure NationalSite where
  category : String
  name : String
  address : String
  zipcode : String
  phone : String
  deriving DecidableEq

/-- `NationalSite.info` (lines 44-45):
`f"{self.name} ({self.category}): {self.address} {self.zipcode}"`. -/
def NationalSite.info (s : NationalSite) : String :=
  s.name ++ " (" ++ s.category ++ "): " ++ s.address ++ " " ++ s.zipcode

/-- The texts `get_site_instance` extracts from a fetched site page with
BeautifulSoup (an external library, abstracted here): the `Hero-title`
text, the `Hero-designation` text, the footer `tel` element's text, and
the texts of the spans nested inside each direct span of the footer's
`adr` element. -/
structure SitePage where
  heroTitle : String
  heroDesignation : String
  footerTel : String
  adrSpans : List (List String)

/-- `get_site_instance(site_url)` (lines 181-210) after the fetch: name
and category from the hero elements, phone stripped from the footer tel,
the address from spans 0 and 1 of `adr` span 1 joined by `", "`, and the
zipcode stripped from span 2. Indexing a missing span raises in Python,
modelled as `none`. -/
def get_site_instance (page : SitePage) : Option NationalSite :=
  match page.adrSpans.get? 1 with
  | none => none
  | some address_content =>
      match address_content.get? 0, address_content.get? 1, address_content.get? 2 with
      | some a0, some a1, some a2 =>
          some ⟨page.heroDesignation, page.heroTitle, a0 ++ ", " ++ a1,
                pyStrip a2, pyStrip page.footerTel⟩
      | _, _, _ => none

/-- One `li` entry of the state dropdown on the index page: its visible
text and its anchor's `href` target. -/
structure StateDirEntry where
  text : String
  href : String

/-- `build_state_url_dict()` (lines 153-178) after the fetch: for each
dropdown entry, bind the lower-cased text to
`'https://www.nps.gov' + href`. -/
def build_state_url_dict (entries : List StateDirEntry) : List (String × String) :=
  entries.foldl
    (fun dic e => dictInsert dic (pyLower e.text) ("https://www.nps.gov" ++ e.href)) []

/-- Environment of the interactive loop (lines 292-344): the state
directory built at startup, and `get_sites_for_state` abstracted as a
function from a state url to its ordered site list. -/
structure Env where
  stateDic : List (String × String)
  sitesFor : String → List NationalSite

/-- The implicit two-state machine of the interactive loop: `state` unset
(`selectingState`), a state chosen with its site list in scope
(`selectingSite`), terminated after `exit`, or `crashed` when an
uncaught exception (the `ValueError` of `int()` at line 319) aborts the
process with a traceback. -/
inductive LoopState
  | selectingState
  | selectingSite (stateName : String) (sites : List NationalSite)
  | terminated
  | crashed
  deriving DecidableEq

/-- Observable actions of one loop step: the bad-state-name error print
(line 300), printing the enumerated site list (lines 306-310), the
invalid-input error print (line 344), and a `get_nearby_places` call
(line 321) carrying the chosen site's zipcode (its `origin` parameter). -/
inductive Event
  | errorBadState
  | listedSites (stateName : String) (count : Nat)
  | invalidInput
  | nearbyCalled (zipcode : String)
  deriving DecidableEq

/-- One input consumed by the loop (lines 294-344). At the state prompt:
`'exit'` terminates; an input whose lower-casing is not a directory key
prints the error and stays; otherwise the site list for
`state_dic[state.lower()]` is fetched and printed and the loop falls
through to the site prompt. At the site prompt (line 319, evaluated left
to right with Python short-circuiting): `'exit'` terminates, `'back'`
clears the state; otherwise if `num.isnumeric()` holds, `int(num)` is
evaluated — raising an uncaught `ValueError` (crash) on a
numeric-but-not-decimal input — and an in-range index calls
`get_nearby_places` on that site and stays while an out-of-range value
prints the invalid-input error; a non-numeric input prints the
invalid-input error and stays. -/
def loopStep (env : Env) : LoopState → String → LoopState × List Event
  | .terminated, _ => (.terminated, [])
  | .crashed, _ => (.crashed, [])
  | .selectingState, s =>
      if s = "exit" then (.terminated, [])
      else
        match dictLookup env.stateDic (pyLower s) with
        | none => (.selectingState, [.errorBadState])
        | some stateUrl =>
            (.selectingSite s (env.sitesFor stateUrl),
             [.listedSites (pyLower s) (env.sitesFor stateUrl).length])
  | .selectingSite st sites, num =>
      if num = "exit" then (.terminated, [])
      else if num = "back" then (.selectingState, [])
      else if pyIsNumeric num then
        match pyIntOpt num with
        | none => (.crashed, [])
        | some n =>
            if 1 ≤ n ∧ n ≤ sites.length then
              (.selectingSite st sites,
               [.nearbyCalled ((sites.getD (n - 1) ⟨"", "", "", "", ""⟩).zipcode)])
            else
              (.selectingSite st sites, [.invalidInput])
      else
        (.selectingSite st sites, [.invalidInput])

/-- Run the loop over a list of stdin lines, collecting events; inputs
after termination or a crash are never read. -/
def runLoop (env : Env) : LoopState → List String → LoopState × List Event
  | s, [] => (s, [])
  | s, i :: rest =>
      match s with
      | .terminated => (.terminated, [])
      | .crashed => (.crashed, [])
      | s =>
          let first := loopStep env s i
          let later := runLoop env first.1 rest
          (later.1, first.2 ++ later.2)

/-- The sequence of loop states visited while consuming the inputs,
starting with the initial state. -/
def stateTrace (env : Env) : LoopState → List String → List LoopState
  | s, [] => [s]
  | s, i :: rest =>
      match s with
      | .terminated => [.terminated]
      | .crashed => [.crashed]
      | s => s :: stateTrace env (loopStep env s i).1 rest

/-- How many `get_nearby_places` calls a list of events records. -/
def countNearby (evs : List Event) : Nat :=
  (evs.filter (fun e => match e with | .nearbyCalled _ => true | _ => false)).length

/-- A constant network transport for concrete witnesses. -/
def net0 : String → List (String × String) → String :=
  fun _ _ => "body"

/-- A concrete environment for witnesses: a directory holding michigan
and an empty site list for every state. -/
def demoEnv : Env :=
  ⟨[("michigan", "https://www.nps.gov/state/mi/index.htm")], fun _ => []⟩

/-- A concrete national site record for witnesses. -/
def demoSite : NationalSite :=
  ⟨"National Park", "Isle Royale", "Houghton, MI", "49931", "(906) 482-0984"⟩

/-- The request-key format in the words of the spec: start with the url
and append, for each parameter entry in iteration order, the key and then
the value, all joined by the single separator character `_`; with empty
params the key is exactly the url. Stated independently of the source's
list-building so the two can be compared. -/
def buildKeySpecWords (url : String) (params : List (String × String)) : String :=
  url ++ String.join (params.map (fun p => "_" ++ p.1 ++ "_" ++ p.2))

/-- Keys and values of the parameter entries, flattened in iteration
order. -/
def pairsFlat : List (String × String) → List String
  | [] => []
  | p :: t => p.1 :: p.2 :: pairsFlat t

theorem foldl_extend_eq_pairsFlat (ps : List (String × String)) (l : List String) :
    ps.foldl (fun items item => items ++ [item.1, item.2]) l = l ++ pairsFlat ps := by
  induction ps generalizing l with
  | nil => simp [pairsFlat]
  | cons p t ih => simp [pairsFlat, ih]

theorem str_join_cons (x : String) (l : List String) :
    String.join (x :: l) = x ++ String.join l := by
  apply String.ext
  simp

theorem pyJoin_pairsFlat (ps : List (String × String)) (url : String) :
    pyJoin "_" (url :: pairsFlat ps) = buildKeySpecWords url ps := by
  induction ps generalizing url with
  | nil => simp [pairsFlat, pyJoin, buildKeySpecWords, String.join]
  | cons p t ih =>
      show (p.1 :: p.2 :: pairsFlat t).foldl (fun acc s => acc ++ "_" ++ s) url = _
      have h1 : (p.1 :: p.2 :: pairsFlat t).foldl (fun acc s => acc ++ "_" ++ s) url
          = pyJoin "_" ((url ++ "_" ++ p.1 ++ "_" ++ p.2) :: pairsFlat t) := rfl
      rw [h1, ih]
      show buildKeySpecWords (url ++ "_" ++ p.1 ++ "_" ++ p.2) t
      = url ++ String.join (("_" ++ p.1 ++ "_" ++ p.2) :: t.map (fun q => "_" ++ q.1 ++ "_" ++ q.2))
      rw [str_join_cons]
      show (url ++ "_" ++ p.1 ++ "_" ++ p.2) ++ String.join (t.map (fun q => "_" ++ q.1 ++ "_" ++ q.2)) = _
      apply String.ext
      simp

theorem construct_unique_key_eq_specWords (url : String) (params : List (String × String)) :
    construct_unique_key url params = buildKeySpecWords url params := by
  unfold construct_unique_key
  rw [foldl_extend_eq_pairsFlat]
  exact pyJoin_pairsFlat params url

/-- C2: the request key builder is pure and deterministic; it starts with
the url and, for each entry in iteration order, appends the key then the
value, all joined by the separator `_` (equality with the spec-worded
`buildKeySpecWords`); with an empty parameter mapping it is exactly the
url; and equal arguments yield identical strings. -/
theorem construct_unique_key_spec (url : String) (params : List (String × String)) :
    construct_unique_key url params = buildKeySpecWords url params ∧
    construct_unique_key url [] = url ∧
    (∀ (url2 : String) (params2 : List (String × String)),
      url = url2 → params = params2 →
      construct_unique_key url params = construct_unique_key url2 params2) := by
  refine ⟨construct_unique_key_eq_specWords url params, rfl, ?_⟩
  intro url2 params2 h1 h2
  rw [h1, h2]

/-- Witness for C2 at url `"u"`, params `[("a", "b")]`, with every
hypothesis discharged concretely. -/
theorem construct_unique_key_spec_witness :
    construct_unique_key "u" [("a", "b")] = buildKeySpecWords "u" [("a", "b")] ∧
    construct_unique_key "u" [] = "u" ∧
    construct_unique_key "u" [("a", "b")] = construct_unique_key "u" [("a", "b")] :=
  ⟨(construct_unique_key_spec "u" [("a", "b")]).1,
   (construct_unique_key_spec "u" [("a", "b")]).2.1,
   (construct_unique_key_spec "u" [("a", "b")]).2.2 "u" [("a", "b")] rfl rfl⟩

theorem dictLookup_map_overwrite (k v : String) :
    ∀ d : List (String × String), (dictLookup d k).isSome →
      dictLookup (d.map (fun p => if p.1 = k then (k, v) else p)) k = some v := by
  intro d
  induction d with
  | nil => intro h; simp [dictLookup] at h
  | cons p t ih =>
      intro h
      by_cases hp : p.1 = k
      · simp [dictLookup, hp]
      · simp [dictLookup, hp] at h ⊢
        exact ih h

theorem dictLookup_append_self (k v : String) :
    ∀ d : List (String × String), dictLookup d k = none →
      dictLookup (d ++ [(k, v)]) k = some v := by
  intro d
  induction d with
  | nil => intro _; simp [dictLookup]
  | cons p t ih =>
      intro h
      by_cases hp : p.1 = k
      · simp [dictLookup, hp] at h
      · simp [dictLookup, hp] at h ⊢
        exact ih h

theorem dictLookup_insert_self (d : List (String × String)) (k v : String) :
    dictLookup (dictInsert d k v) k = some v := by
  unfold dictInsert
  by_cases h : (dictLookup d k).isSome
  · simp only [h, if_true]
    exact dictLookup_map_overwrite k v d h
  · simp only [h, if_false]
    exact dictLookup_append_self k v d (Option.not_isSome_iff_eq_none.mp h)

theorem dictLookup_map_ne (k v k' : String) (hne : k' ≠ k) :
    ∀ d : List (String × String),
      dictLookup (d.map (fun p => if p.1 = k then (k, v) else p)) k' = dictLookup d k' := by
  intro d
  induction d with
  | nil => rfl
  | cons p t ih =>
      by_cases hp : p.1 = k
      · have : k ≠ k' := fun hkk => hne hkk.symm
        simp [dictLookup, hp, this, ih]
      · by_cases hp2 : p.1 = k'
        · simp [dictLookup, hp, hp2, hne]
        · simp [dictLookup, hp, hp2, ih]

theorem dictLookup_append_ne (k v k' : String) (hne : k' ≠ k) :
    ∀ d : List (String × String),
      dictLookup (d ++ [(k, v)]) k' = dictLookup d k' := by
  intro d
  induction d with
  | nil => simp [dictLookup, Ne.symm hne]
  | cons p t ih =>
      by_cases hp : p.1 = k'
      · simp [dictLookup, hp]
      · simp [dictLookup, hp, ih]

theorem dictLookup_insert_ne (d : List (String × String)) (k v k' : String) (hne : k' ≠ k) :
    dictLookup (dictInsert d k v) k' = dictLookup d k' := by
  unfold dictInsert
  by_cases h : (dictLookup d k).isSome
  · simp only [h, if_true]
    exact dictLookup_map_ne k v k' hne d
  · simp only [h, if_false]
    exact dictLookup_append_ne k v k' hne d

theorem dictLookup_insert_isSome (d : List (String × String)) (k v k' : String)
    (h : (dictLookup d k').isSome) : (dictLookup (dictInsert d k v) k').isSome := by
  by_cases hk : k' = k
  · subst hk
    rw [dictLookup_insert_self]
    rfl
  · rw [dictLookup_insert_ne d k v k' hk]
    exact h

theorem dictUpdate_isSome (k' : String) :
    ∀ (new prev : List (String × String)), (dictLookup prev k').isSome →
      (dictLookup (dictUpdate prev new) k').isSome := by
  intro new
  induction new with
  | nil => intro prev h; exact h
  | cons p t ih =>
      intro prev h
      show (dictLookup (dictUpdate (dictInsert prev p.1 p.2) t) k').isSome
      exact ih _ (dictLookup_insert_isSome prev p.1 p.2 k' h)

/-- C3: cache round-trip and merge: saving `{k: v}` then loading yields
`k -> v`; every key present before a save (of arbitrary new entries)
is still present after it, so the on-disk key set never shrinks; and
saving `{"a": "1"}` then `{"b": "2"}` leaves both `"a" -> "1"` and
`"b" -> "2"` in the final load. -/
theorem cache_roundtrip_merge (file : CacheFile) (new : List (String × String)) (k v k' : String) :
    dictLookup (open_cache (save_cache file [(k, v)])) k = some v ∧
    ((dictLookup (open_cache file) k').isSome →
      (dictLookup (open_cache (save_cache file new)) k').isSome) ∧
    dictLookup (open_cache (save_cache (save_cache file [("a", "1")]) [("b", "2")])) "a"
      = some "1" ∧
    dictLookup (open_cache (save_cache (save_cache file [("a", "1")]) [("b", "2")])) "b"
      = some "2" := by
  refine ⟨?_, ?_, ?_, ?_⟩
  · exact dictLookup_insert_self (open_cache file) k v
  · intro h
    exact dictUpdate_isSome k' new (open_cache file) h
  · show dictLookup (dictInsert (dictInsert (open_cache file) "a" "1") "b" "2") "a" = some "1"
    rw [dictLookup_insert_ne _ "b" "2" "a" (by decide)]
    exact dictLookup_insert_self (open_cache file) "a" "1"
  · exact dictLookup_insert_self _ "b" "2"

/-- Witness for C3 at a concrete stored file, discharging the
key-was-present hypothesis of the merge conjunct at key `"x"`. -/
theorem cache_roundtrip_merge_witness :
    dictLookup (open_cache (save_cache (CacheFile.stored [("x", "y")]) [("k", "v")])) "k"
      = some "v" ∧
    (dictLookup (open_cache (save_cache (CacheFile.stored [("x", "y")]) [("b", "2")])) "x").isSome :=
  ⟨(cache_roundtrip_merge (CacheFile.stored [("x", "y")]) [("b", "2")] "k" "v" "x").1,
   (cache_roundtrip_merge (CacheFile.stored [("x", "y")]) [("b", "2")] "k" "v" "x").2.1
     (by decide)⟩

/-- C4: for every state of the cache file, if reading or parsing it
raises (missing file or malformed content), `open_cache` returns the
empty mapping; when it parses, `open_cache` returns the parsed mapping;
in neither case is a fault surfaced to the caller. -/
theorem open_cache_fault_empty (file : CacheFile) :
    (∀ e, readCacheFile file = Except.error e → open_cache file = []) ∧
    (∀ d, readCacheFile file = Except.ok d → open_cache file = d) := by
  cases file <;> simp [readCacheFile, open_cache]

/-- Witness for C4 at the missing-file and corrupt-file states, with the
read-fault hypothesis discharged concretely. -/
theorem open_cache_fault_empty_witness :
    open_cache CacheFile.missing = [] ∧ open_cache CacheFile.corrupt = [] :=
  ⟨(open_cache_fault_empty CacheFile.missing).1 () rfl,
   (open_cache_fault_empty CacheFile.corrupt).1 () rfl⟩

/-- C9: the request key builder is not injective: the distinct inputs
`("u", [("a_b", "c")])` and `("u", [("a", "b_c")])`, which differ only in
where a `_` sits inside a parameter key or value, produce the same key
string `"u_a_b_c"`. -/
theorem construct_unique_key_collision :
    construct_unique_key "u" [("a_b", "c")] = construct_unique_key "u" [("a", "b_c")] ∧
    construct_unique_key "u" [("a_b", "c")] = "u_a_b_c" ∧
    (("u", [("a_b", "c")]) : String × List (String × String)) ≠ ("u", [("a", "b_c")]) := by
  refine ⟨by decide, by decide, by decide⟩

/-- C1: calling the cached fetcher twice with identical arguments issues
at most one network call: on a first-call miss the body comes from the
network and `{key: body}` is persisted; the second call finds the key,
returns a body identical to the first, and performs zero network
calls. -/
theorem make_request_with_cache_idempotent
    (net : String → List (String × String) → String) (file : CacheFile)
    (url : String) (params : List (String × String)) :
    (make_request_with_cache net
        (make_request_with_cache net file url params).file url params).result
      = (make_request_with_cache net file url params).result ∧
    (make_request_with_cache net
        (make_request_with_cache net file url params).file url params).networkCalls = 0 ∧
    (make_request_with_cache net file url params).networkCalls
      + (make_request_with_cache net
          (make_request_with_cache net file url params).file url params).networkCalls ≤ 1 ∧
    (dictLookup (open_cache file) (request_key url params) = none →
      (make_request_with_cache net file url params).result = net url params ∧
      dictLookup (open_cache (make_request_with_cache net file url params).file)
          (request_key url params)
        = some (make_request_with_cache net file url params).result) := by
  cases h : dictLookup (open_cache file) (request_key url params) with
  | some v =>
      simp [make_request_with_cache, h]
  | none =>
      have hkey : dictLookup
          (open_cache (save_cache file [(request_key url params, net url params)]))
          (request_key url params) = some (net url params) := by
        show dictLookup (dictInsert (open_cache file) (request_key url params)
          (net url params)) (request_key url params) = some (net url params)
        exact dictLookup_insert_self (open_cache file) (request_key url params) (net url params)
      simp [make_request_with_cache, h, hkey]

/-- Witness for C1 at the constant transport, a missing cache file, url
`"u"` and no params, discharging the cache-miss hypothesis concretely. -/
theorem make_request_with_cache_idempotent_witness :
    (make_request_with_cache net0 CacheFile.missing "u" []).result = net0 "u" [] ∧
    dictLookup (open_cache (make_request_with_cache net0 CacheFile.missing "u" []).file)
        (request_key "u" [])
      = some (make_request_with_cache net0 CacheFile.missing "u" []).result :=
  (make_request_with_cache_idempotent net0 CacheFile.missing "u" []).2.2.2 (by decide)

/-- C7: on the Isle Royale fixture page (title `"Isle Royale"`,
designation `"National Park"`, footer phone `"(906) 482-0984"`, address
spans `"Houghton"`, `"MI"` and zip span `"49931"`), `get_site_instance`
returns the record with exactly those five field values, and `info()`
renders `"Isle Royale (National Park): Houghton, MI 49931"`. -/
theorem isle_royale_site_instance :
    get_site_instance ⟨"Isle Royale", "National Park", "(906) 482-0984",
        [[], ["Houghton", "MI", "49931"]]⟩
      = some ⟨"National Park", "Isle Royale", "Houghton, MI", "49931", "(906) 482-0984"⟩ ∧
    NationalSite.info ⟨"National Park", "Isle Royale", "Houghton, MI", "49931", "(906) 482-0984"⟩
      = "Isle Royale (National Park): Houghton, MI 49931" := by
  refine ⟨by decide, by decide⟩

/-- C5: with a state directory containing `"michigan"`, the input
sequence `["michigan", "back", "exit"]` drives the session through
selectingState, selectingSite, selectingState, terminated, and
`get_nearby_places` is never called. -/
theorem loop_michigan_back_exit (env : Env) (url : String)
    (h : dictLookup env.stateDic "michigan" = some url) :
    stateTrace env .selectingState ["michigan", "back", "exit"]
      = [.selectingState, .selectingSite "michigan" (env.sitesFor url),
         .selectingState, .terminated] ∧
    countNearby (runLoop env .selectingState ["michigan", "back", "exit"]).2 = 0 := by
  have hlow : pyLower "michigan" = "michigan" := by decide
  constructor
  · simp [stateTrace, loopStep, hlow, h, runLoop]
  · simp [runLoop, loopStep, hlow, h, countNearby]

/-- Witness for C5 at the concrete demo environment, with the
directory-contains-michigan hypothesis discharged concretely. -/
theorem loop_michigan_back_exit_witness :
    stateTrace demoEnv .selectingState ["michigan", "back", "exit"]
      = [.selectingState,
         .selectingSite "michigan" (demoEnv.sitesFor "https://www.nps.gov/state/mi/index.htm"),
         .selectingState, .terminated] ∧
    countNearby (runLoop demoEnv .selectingState ["michigan", "back", "exit"]).2 = 0 :=
  loop_michigan_back_exit demoEnv "https://www.nps.gov/state/mi/index.htm" (by decide)

/-- C6 (code bug): evaluating the site prompt on the one-entry list
`[demoSite]`. The non-numeric input `"abc"` and the out-of-range `"5"`
print the invalid-input error and stay without calling
`get_nearby_places`, and `"1"` stays and calls it exactly once — the
recovered behavior the claim describes. But the input `"²"` (`U+00B2`,
for which `str.isnumeric()` is True while `int()` raises `ValueError`)
crashes the session with an uncaught exception instead of printing the
error and re-prompting, and the input `"١"` (`U+0661`, Arabic-Indic
one, a decimal digit `int()` parses as 1) is accepted as index 1 and
calls `get_nearby_places`; so the code does not recover from every
input that is not `exit`, not `back` and not an in-range ASCII index. -/
theorem loop_site_numeric_crash :
    loopStep demoEnv (.selectingSite "michigan" [demoSite]) "abc"
      = (.selectingSite "michigan" [demoSite], [.invalidInput]) ∧
    loopStep demoEnv (.selectingSite "michigan" [demoSite]) "5"
      = (.selectingSite "michigan" [demoSite], [.invalidInput]) ∧
    (loopStep demoEnv (.selectingSite "michigan" [demoSite]) "1").1
      = .selectingSite "michigan" [demoSite] ∧
    countNearby (loopStep demoEnv (.selectingSite "michigan" [demoSite]) "1").2 = 1 ∧
    loopStep demoEnv (.selectingSite "michigan" [demoSite]) "²" = (.crashed, []) ∧
    loopStep demoEnv (.selectingSite "michigan" [demoSite]) "١"
      = (.selectingSite "michigan" [demoSite], [.nearbyCalled "49931"]) := by
  refine ⟨by decide, by decide, by decide, by decide, by decide, by decide⟩

theorem build_foldl_untouched (k : String) :
    ∀ (entries : List StateDirEntry) (acc : List (String × String)),
      (∀ e ∈ entries, pyLower e.text ≠ k) →
      dictLookup
        (entries.foldl
          (fun dic e => dictInsert dic (pyLower e.text) ("https://www.nps.gov" ++ e.href)) acc) k
        = dictLookup acc k := by
  intro entries
  induction entries with
  | nil => intro acc _; rfl
  | cons a t ih =>
      intro acc hall
      show dictLookup
        (t.foldl _ (dictInsert acc (pyLower a.text) ("https://www.nps.gov" ++ a.href))) k = _
      rw [ih _ (fun e he => hall e (List.mem_cons_of_mem a he))]
      exact dictLookup_insert_ne acc (pyLower a.text) ("https://www.nps.gov" ++ a.href) k
        (fun hk => hall a (List.mem_cons_self a t) hk.symm)

theorem build_foldl_lookup :
    ∀ (entries : List StateDirEntry),
      (entries.map (fun x => pyLower x.text)).Nodup →
      ∀ (acc : List (String × String)) (e : StateDirEntry), e ∈ entries →
      dictLookup
        (entries.foldl
          (fun dic x => dictInsert dic (pyLower x.text) ("https://www.nps.gov" ++ x.href)) acc)
        (pyLower e.text)
        = some ("https://www.nps.gov" ++ e.href) := by
  intro entries
  induction entries with
  | nil => intro _ acc e he; exact absurd he (List.not_mem_nil e)
  | cons a t ih =>
      intro hnodup acc e he
      have hnd : (∀ x ∈ t, ¬pyLower x.text = pyLower a.text) ∧
          (t.map (fun x => pyLower x.text)).Nodup := by simpa using hnodup
      rcases List.mem_cons.mp he with he1 | hmem
      · rw [he1]
        show dictLookup
          (t.foldl _ (dictInsert acc (pyLower a.text) ("https://www.nps.gov" ++ a.href)))
          (pyLower a.text) = _
        rw [build_foldl_untouched (pyLower a.text) t _ hnd.1]
        exact dictLookup_insert_self acc (pyLower a.text) ("https://www.nps.gov" ++ a.href)
      · exact ih hnd.2 _ e hmem

/-- C8: `build_state_url_dict` maps every dropdown entry's lower-cased
visible text to the fixed host concatenated with the entry's link
target (for entries with pairwise distinct lower-cased texts, as on the
real page); on the fixture with the single entry
`"Michigan" -> "/state/mi/index.htm"` it returns exactly
`{"michigan": "https://www.nps.gov/state/mi/index.htm"}`. -/
theorem build_state_url_dict_spec (entries : List StateDirEntry) (e : StateDirEntry)
    (hmem : e ∈ entries) (hnodup : (entries.map (fun x => pyLower x.text)).Nodup) :
    dictLookup (build_state_url_dict entries) (pyLower e.text)
      = some ("https://www.nps.gov" ++ e.href) ∧
    build_state_url_dict [⟨"Michigan", "/state/mi/index.htm"⟩]
      = [("michigan", "https://www.nps.gov/state/mi/index.htm")] := by
  constructor
  · exact build_foldl_lookup entries hnodup [] e hmem
  · decide

/-- Witness for C8 at the one-entry Michigan fixture, with the
membership and distinctness hypotheses discharged concretely. -/
theorem build_state_url_dict_spec_witness :
    dictLookup (build_state_url_dict [⟨"Michigan", "/state/mi/index.htm"⟩])
        (pyLower "Michigan")
      = some ("https://www.nps.gov" ++ "/state/mi/index.htm") :=
  (build_state_url_dict_spec [⟨"Michigan", "/state/mi/index.htm"⟩]
    ⟨"Michigan", "/state/mi/index.htm"⟩ (List.mem_cons_self _ _) (by simp)).1

/-- C10: state-name matching at the state prompt lower-cases the input
(`"Michigan"` and `"michigan"` both reach the site list), while the
commands are compared verbatim: `"exit"` terminates but `"Exit"` is
looked up as a state name and rejected, and at the site prompt `"Exit"`
and `"Back"` are invalid input rather than commands. -/
theorem loop_command_case_sensitivity (env : Env) (url : String)
    (hm : dictLookup env.stateDic "michigan" = some url)
    (hx : dictLookup env.stateDic "exit" = none) :
    (loopStep env .selectingState "Michigan").1 = .selectingSite "Michigan" (env.sitesFor url) ∧
    (loopStep env .selectingState "michigan").1 = .selectingSite "michigan" (env.sitesFor url) ∧
    loopStep env .selectingState "Exit" = (.selectingState, [.errorBadState]) ∧
    loopStep env .selectingState "exit" = (.terminated, []) ∧
    (∀ (st : String) (sites : List NationalSite),
      loopStep env (.selectingSite st sites) "Exit"
        = (.selectingSite st sites, [.invalidInput])) ∧
    (∀ (st : String) (sites : List NationalSite),
      loopStep env (.selectingSite st sites) "Back"
        = (.selectingSite st sites, [.invalidInput])) := by
  have hM : pyLower "Michigan" = "michigan" := by decide
  have hm2 : pyLower "michigan" = "michigan" := by decide
  have hE : pyLower "Exit" = "exit" := by decide
  refine ⟨?_, ?_, ?_, ?_, ?_, ?_⟩
  · simp [loopStep, hM, hm]
  · simp [loopStep, hm2, hm]
  · simp [loopStep, hE, hx]
  · simp [loopStep]
  · intro st sites
    have hnE : pyIsNumeric "Exit" = false := by decide
    simp [loopStep, hnE]
  · intro st sites
    have hnB : pyIsNumeric "Back" = false := by decide
    simp [loopStep, hnB]

/-- Witness for C10 at the demo environment: `"Exit"` at the state
prompt is rejected as an unknown state name, and at the site prompt it
is invalid input; both hypotheses discharged concretely. -/
theorem loop_command_case_sensitivity_witness :
    loopStep demoEnv .selectingState "Exit" = (.selectingState, [.errorBadState]) ∧
    loopStep demoEnv (.selectingSite "michigan" []) "Exit"
      = (.selectingSite "michigan" [], [.invalidInput]) :=
  have h := loop_command_case_sensitivity demoEnv "https://www.nps.gov/state/mi/index.htm"
    (by decide) (by decide)
  ⟨h.2.2.1, h.2.2.2.2.1 "michigan" []⟩
